import Mathlib

/-!
Verification of the Gallery/Lightbox controller (`GalleryManager` in the
repository's gallery script).

The manager is a plain mutable object driven by the browser event loop.  We
embed it as a state record `GalleryState` holding every field the claims
mention, with each method a function `GalleryState → GalleryState` (or
`Except GalleryState GalleryState` when the JavaScript can throw: an
out-of-range access `this.images[index]` yields `undefined` and the following
`image.querySelector('img')` raises a `TypeError`; the `.error` payload is
the state of the manager object at the moment of the throw, since field
mutations performed before the faulting line persist).

A gallery is modelled as the list of its image entries; `this.images`
(the thumbnail elements queried from the gallery) carries the same data.
Timers are modelled explicitly: `setInterval` allocates a fresh positive id
and records it in `activeIntervals` (the set of live repeating timers owned
by the page); `clearInterval id` removes it.  Browser timer ids are positive
integers, so the JavaScript truthiness test `if (this.slideshowInterval)`
coincides with the `Option` match used here.  The 300 ms `setTimeout`
scheduled by `goToSlide` is modelled by the `unlockDelay` field (the pending
delay) together with `fireUnlockTimeout`, the callback that the event loop
runs once the delay elapses.
-/

/-- One image of a gallery: its (thumbnail) `src`, the optional
`data-full` attribute, and the `alt` text used as caption. -/
structure ImageEntry where
  src : String
  full : Option String
  alt : String
deriving Repr, DecidableEq, Inhabited

/-- The full-resolution source used by `loadImage`:
`image.querySelector('img').dataset.full || ...src`. -/
def fullSrc (e : ImageEntry) : String := (e.full).getD e.src

/-- The observable state of the `GalleryManager` object plus the DOM and
timer facts the claims are about. -/
structure GalleryState where
  /-- `this.currentSlide`. -/
  currentSlide : Int
  /-- `this.isAnimating` — the transition lock. -/
  isAnimating : Bool
  /-- `this.currentGallery`. -/
  currentGallery : List ImageEntry
  /-- `this.images`, the entries of the active gallery. -/
  images : List ImageEntry
  /-- Whether the lightbox element carries the `hidden` class. -/
  lightboxHidden : Bool
  /-- Whether `document.body.style.overflow` is `'hidden'` (scroll lock). -/
  bodyOverflowHidden : Bool
  /-- `this.lightboxImage.src`. -/
  lightboxImageSrc : String
  /-- `this.lightboxCaption.textContent`. -/
  lightboxCaption : String
  /-- `this.lightboxCounter.textContent`. -/
  counterText : String
  /-- Which thumbnail of the strip carries the `active` class, if any. -/
  activeThumbnail : Option Int
  /-- Whether the `.lightbox-loader` element is displayed. -/
  loaderVisible : Bool
  /-- Whether the lightbox image's opacity is `'0'`. -/
  imageOpacityZero : Bool
  /-- `this.slideshowInterval` — the stored interval handle. -/
  slideshowInterval : Option Nat
  /-- Ids of the interval timers currently live on the page. -/
  activeIntervals : List Nat
  /-- Next id `setInterval` would hand out (browser ids are ≥ 1). -/
  nextTimerId : Nat
  /-- Pending `setTimeout` delay (ms) that will clear `isAnimating`. -/
  unlockDelay : Option Nat
deriving Repr, DecidableEq

/-- The viewer is open iff the lightbox element is not hidden. -/
def isOpen (s : GalleryState) : Bool := !s.lightboxHidden

/-- `config.animationDuration`. -/
def animationDuration : Nat := 300

/-- `config.slideShowDelay`. -/
def slideShowDelay : Nat := 5000

/-- State after the constructor ran (`currentSlide = 0`,
`isAnimating = false`, lightbox created hidden with empty `src`). -/
def initState : GalleryState where
  currentSlide := 0
  isAnimating := false
  currentGallery := []
  images := []
  lightboxHidden := true
  bodyOverflowHidden := false
  lightboxImageSrc := ""
  lightboxCaption := ""
  counterText := ""
  activeThumbnail := none
  loaderVisible := false
  imageOpacityZero := false
  slideshowInterval := none
  activeIntervals := []
  nextTimerId := 1
  unlockDelay := none

/-- `loadImage(index)`: reads `this.images[index]`; when the index is out of
range the access yields `undefined` and `image.querySelector('img')` throws
before any mutation, hence `.error s`.  Otherwise it shows the loader, sets
the image opacity to `'0'`, assigns the full source and the caption. -/
def loadImage (index : Int) (s : GalleryState) : Except GalleryState GalleryState :=
  if 0 ≤ index ∧ index.toNat < s.images.length then
    let image := s.images.getD index.toNat default
    .ok { s with
      loaderVisible := true
      imageOpacityZero := true
      lightboxImageSrc := fullSrc image
      lightboxCaption := image.alt }
  else
    .error s

/-- `updateThumbnails()`: rebuilds the strip, marking the thumbnail at
`currentSlide` active. -/
def updateThumbnails (s : GalleryState) : GalleryState :=
  { s with activeThumbnail := some s.currentSlide }

/-- `updateCounter()`: writes <code>\x7bcurrentSlide + 1\x7d / \x7blength\x7d</code>. -/
def updateCounter (s : GalleryState) : GalleryState :=
  { s with counterText :=
      toString (s.currentSlide + 1) ++ " / " ++ toString s.images.length }

/-- The two reassignments of `index` in `goToSlide` ("handle circular
navigation"): `if (index < 0) index = length - 1; if (index >= length)
index = 0`. -/
def wrapIndex (index : Int) (n : Nat) : Int :=
  let index1 := if index < 0 then (n : Int) - 1 else index
  if index1 ≥ (n : Int) then 0 else index1

/-- `goToSlide(index)`: no-op under the transition lock; otherwise sets the
lock, normalizes the index, stores it, loads the image, re-renders the
thumbnails and the counter, and schedules the unlock after
`animationDuration` ms. -/
def goToSlide (index : Int) (s : GalleryState) : Except GalleryState GalleryState :=
  if s.isAnimating then .ok s
  else
    let s1 := { s with isAnimating := true }
    let index2 := wrapIndex index s1.images.length
    let s2 := { s1 with currentSlide := index2 }
    match loadImage index2 s2 with
    | .error e => .error e
    | .ok s3 => .ok { updateCounter (updateThumbnails s3) with
                        unlockDelay := some animationDuration }

/-- `prevSlide()`: no-op under the lock, else `goToSlide(currentSlide - 1)`. -/
def prevSlide (s : GalleryState) : Except GalleryState GalleryState :=
  if s.isAnimating then .ok s else goToSlide (s.currentSlide - 1) s

/-- `nextSlide()`: no-op under the lock, else `goToSlide(currentSlide + 1)`. -/
def nextSlide (s : GalleryState) : Except GalleryState GalleryState :=
  if s.isAnimating then .ok s else goToSlide (s.currentSlide + 1) s

/-- The 300 ms timeout callback scheduled by `goToSlide`:
`this.isAnimating = false`. -/
def fireUnlockTimeout (s : GalleryState) : GalleryState :=
  { s with isAnimating := false, unlockDelay := none }

/-- `openLightbox(gallery, index)`: stores the gallery and its entries, sets
`currentSlide = index` with no normalization, shows the lightbox, locks body
scroll, then `loadImage(index)` (which throws on an out-of-range index),
`updateThumbnails()`, `updateCounter()`. -/
def openLightbox (gallery : List ImageEntry) (index : Int) (s : GalleryState) :
    Except GalleryState GalleryState :=
  let s1 := { s with
    currentGallery := gallery
    images := gallery
    currentSlide := index
    lightboxHidden := false
    bodyOverflowHidden := true }
  match loadImage index s1 with
  | .error e => .error e
  | .ok s2 => .ok (updateCounter (updateThumbnails s2))

/-- `stopSlideshow()`: clears the interval only when the stored handle is
truthy (browser interval ids are positive, so this is the `Option` match). -/
def stopSlideshow (s : GalleryState) : GalleryState :=
  match s.slideshowInterval with
  | some id =>
      { s with
        activeIntervals := s.activeIntervals.erase id
        slideshowInterval := none }
  | none => s

/-- `startSlideshow()`: `this.slideshowInterval = setInterval(() =>
this.nextSlide(), slideShowDelay)` — allocates a fresh interval and
overwrites the stored handle without clearing the previous one. -/
def startSlideshow (s : GalleryState) : GalleryState :=
  { s with
    activeIntervals := s.activeIntervals ++ [s.nextTimerId]
    slideshowInterval := some s.nextTimerId
    nextTimerId := s.nextTimerId + 1 }

/-- `closeLightbox()`: hides the lightbox, restores body scroll, then
`stopSlideshow()` unconditionally. -/
def closeLightbox (s : GalleryState) : GalleryState :=
  stopSlideshow { s with lightboxHidden := true, bodyOverflowHidden := false }

/-- `handleImageLoad()`: hides the loader and restores the image opacity. -/
def handleImageLoad (s : GalleryState) : GalleryState :=
  { s with loaderVisible := false, imageOpacityZero := false }

/-- `handleImageError()`: hides the loader and substitutes the placeholder
image and the error caption. -/
def handleImageError (s : GalleryState) : GalleryState :=
  { s with
    loaderVisible := false
    lightboxImageSrc := "/assets/images/error-image.jpg"
    lightboxCaption := "Error loading image" }

/-- Event-loop step: a live interval timer with this id fires and runs its
callback `() => this.nextSlide()`; a cleared timer never fires. -/
def intervalTick (id : Nat) (s : GalleryState) : Except GalleryState GalleryState :=
  if s.activeIntervals.contains id then nextSlide s else .ok s

/-- Whether a call raised a JavaScript exception. -/
def threw : Except GalleryState GalleryState → Bool
  | .error _ => true
  | .ok _ => false

/-- The manager object's state after a call, whether or not it threw
(mutations done before a throw persist on the object). -/
def stateAfter : Except GalleryState GalleryState → GalleryState
  | .error e => e
  | .ok t => t

/-- The data-model invariant: while the viewer is open, `currentSlide` is a
valid index into the active gallery's entries. -/
def indexInvariant (s : GalleryState) : Prop :=
  isOpen s = true → 0 ≤ s.currentSlide ∧ s.currentSlide < s.images.length

instance (s : GalleryState) : Decidable (indexInvariant s) := by
  unfold indexInvariant; infer_instance

/-- A navigation request, as issued by the arrow buttons, the keyboard, a
swipe, or a thumbnail click. -/
inductive NavOp where
  | next : NavOp
  | prev : NavOp
  | goTo (index : Int) : NavOp
deriving Repr, DecidableEq

/-- Dispatch one navigation request to the corresponding method. -/
def applyNav : NavOp → GalleryState → Except GalleryState GalleryState
  | .next, s => nextSlide s
  | .prev, s => prevSlide s
  | .goTo i, s => goToSlide i s

/-- Run a sequence of navigation requests, stopping at the first throw. -/
def applyNavs : List NavOp → GalleryState → Except GalleryState GalleryState
  | [], s => .ok s
  | op :: ops, s =>
    match applyNav op s with
    | .error e => .error e
    | .ok t => applyNavs ops t

/-- A three-image test gallery. -/
def gallery3 : List ImageEntry :=
  [⟨"a.jpg", some "a-full.jpg", "Bee A"⟩,
   ⟨"b.jpg", none, "Bee B"⟩,
   ⟨"c.jpg", some "c-full.jpg", "Bee C"⟩]

/-- A reachable open state: the viewer opened on `gallery3` at index 0. -/
def sOpen : GalleryState := stateAfter (openLightbox gallery3 0 initState)

/-- The viewer opened on `gallery3` at the last index. -/
def sLast : GalleryState := stateAfter (openLightbox gallery3 2 initState)

/-- An open state in the middle of a transition (lock held). -/
def sLocked : GalleryState := { sOpen with isAnimating := true }

/-- The viewer opened on `gallery3` and then closed again. -/
def sClosed : GalleryState := closeLightbox sOpen

section Lemmas

lemma wrapIndex_nonneg (index : Int) (n : Nat) (hn : n ≠ 0) :
    0 ≤ wrapIndex index n := by
  simp only [wrapIndex]
  split_ifs <;> omega

lemma wrapIndex_lt (index : Int) (n : Nat) (hn : n ≠ 0) :
    wrapIndex index n < (n : Int) := by
  simp only [wrapIndex]
  split_ifs <;> omega

lemma wrapIndex_self (c : Int) (n : Nat) (h0 : 0 ≤ c) (h1 : c < (n : Int)) :
    wrapIndex c n = c := by
  simp only [wrapIndex]
  split_ifs <;> omega

lemma wrapIndex_roundtrip (c : Int) (n : Nat) (h0 : 0 ≤ c) (h1 : c < (n : Int)) :
    wrapIndex (wrapIndex (c + 1) n - 1) n = c := by
  simp only [wrapIndex]
  split_ifs <;> omega

/-- When the lock is clear and the gallery is non-empty, `goToSlide` is the
explicit state transformer below. -/
lemma goToSlide_eq (index : Int) (s : GalleryState)
    (ha : s.isAnimating = false) (hn : s.images.length ≠ 0) :
    goToSlide index s = .ok { s with
      isAnimating := true
      currentSlide := wrapIndex index s.images.length
      loaderVisible := true
      imageOpacityZero := true
      lightboxImageSrc :=
        fullSrc (s.images.getD (wrapIndex index s.images.length).toNat default)
      lightboxCaption :=
        (s.images.getD (wrapIndex index s.images.length).toNat default).alt
      activeThumbnail := some (wrapIndex index s.images.length)
      counterText := toString (wrapIndex index s.images.length + 1) ++ " / " ++
        toString s.images.length
      unlockDelay := some animationDuration } := by
  have h0 := wrapIndex_nonneg index s.images.length hn
  have h1 := wrapIndex_lt index s.images.length hn
  have h2 : (wrapIndex index s.images.length).toNat < s.images.length := by omega
  simp only [goToSlide, ha, if_neg Bool.false_ne_true, loadImage, updateThumbnails,
    updateCounter]
  simp only [if_pos (And.intro h0 h2)]

lemma nextSlide_eq_goToSlide (s : GalleryState) (ha : s.isAnimating = false) :
    nextSlide s = goToSlide (s.currentSlide + 1) s := by
  simp [nextSlide, ha]

lemma prevSlide_eq_goToSlide (s : GalleryState) (ha : s.isAnimating = false) :
    prevSlide s = goToSlide (s.currentSlide - 1) s := by
  simp [prevSlide, ha]

lemma goToSlide_empty_not_ok (index : Int) (s t : GalleryState)
    (ha : s.isAnimating = false) (hn : s.images.length = 0) :
    goToSlide index s ≠ .ok t := by
  simp [goToSlide, loadImage, ha, hn]

/-- `goToSlide` preserves the index invariant whenever it returns normally. -/
lemma goToSlide_ok_invariant (index : Int) (s t : GalleryState)
    (h : goToSlide index s = .ok t) (hs : indexInvariant s) : indexInvariant t := by
  cases hb : s.isAnimating with
  | true =>
      unfold goToSlide at h
      rw [if_pos hb] at h
      simp only [Except.ok.injEq] at h
      subst h
      exact hs
  | false =>
      by_cases hn : s.images.length = 0
      · exact absurd h (goToSlide_empty_not_ok index s t hb hn)
      · rw [goToSlide_eq index s hb hn] at h
        simp only [Except.ok.injEq] at h
        subst h
        intro _
        have h0 := wrapIndex_nonneg index s.images.length hn
        have h1 := wrapIndex_lt index s.images.length hn
        exact ⟨h0, by simpa using h1⟩

/-- When its index is within bounds, `openLightbox` is the explicit state
transformer below. -/
lemma openLightbox_eq (g : List ImageEntry) (i : Int) (s : GalleryState)
    (h0 : 0 ≤ i) (h1 : i < (g.length : Int)) :
    openLightbox g i s = .ok { s with
      currentGallery := g
      images := g
      currentSlide := i
      lightboxHidden := false
      bodyOverflowHidden := true
      loaderVisible := true
      imageOpacityZero := true
      lightboxImageSrc := fullSrc (g.getD i.toNat default)
      lightboxCaption := (g.getD i.toNat default).alt
      activeThumbnail := some i
      counterText := toString (i + 1) ++ " / " ++ toString g.length } := by
  have h2 : i.toNat < g.length := by omega
  simp only [openLightbox, loadImage, updateThumbnails, updateCounter]
  simp only [if_pos (And.intro h0 h2)]

lemma openLightbox_not_ok (g : List ImageEntry) (i : Int) (s t : GalleryState)
    (hbad : ¬ (0 ≤ i ∧ i.toNat < g.length)) : openLightbox g i s ≠ .ok t := by
  simp [openLightbox, loadImage, hbad]

/-- `openLightbox` establishes the index invariant whenever it returns
normally (otherwise it threw inside `loadImage`). -/
lemma openLightbox_ok_invariant (g : List ImageEntry) (i : Int) (s t : GalleryState)
    (h : openLightbox g i s = .ok t) : indexInvariant t := by
  by_cases hc : 0 ≤ i ∧ i.toNat < g.length
  · rw [openLightbox_eq g i s hc.1 (by omega)] at h
    simp only [Except.ok.injEq] at h
    subst h
    intro _
    refine ⟨hc.1, ?_⟩
    simpa using (by omega : i < (g.length : Int))
  · exact absurd h (openLightbox_not_ok g i s t hc)

lemma closeLightbox_slideshow_none (s : GalleryState) :
    (closeLightbox s).slideshowInterval = none := by
  cases hsi : s.slideshowInterval <;> simp [closeLightbox, stopSlideshow, hsi]

lemma wrapIndex_last_succ (n : Nat) (hn : n ≠ 0) :
    wrapIndex ((n : Int) - 1 + 1) n = 0 := by
  simp only [wrapIndex]
  split_ifs <;> omega

lemma wrapIndex_zero_pred (n : Nat) (hn : n ≠ 0) :
    wrapIndex ((0 : Int) - 1) n = (n : Int) - 1 := by
  simp only [wrapIndex]
  split_ifs <;> omega

end Lemmas

/-- C1 (counterexample): an out-of-range index passed to `open` is neither
normalized nor silently absorbed — `openLightbox(gallery3, 5)` stores
`currentSlide = 5` unchanged, shows the lightbox, and then throws a
`TypeError` inside `loadImage`, leaving the viewer open with an invalid
index (5 is not below the gallery length 3). -/
theorem openLightbox_out_of_range_throws_unnormalized :
    threw (openLightbox gallery3 5 initState) = true ∧
    isOpen (stateAfter (openLightbox gallery3 5 initState)) = true ∧
    (stateAfter (openLightbox gallery3 5 initState)).currentSlide = 5 ∧
    ¬ (stateAfter (openLightbox gallery3 5 initState)).currentSlide <
        ((stateAfter (openLightbox gallery3 5 initState)).images.length : Int) := by
  refine ⟨rfl, rfl, rfl, ?_⟩
  decide

/-- C1 (amended): while the viewer is open, `currentSlide` is a valid index
into the active gallery, and this invariant is preserved by every operation
— `open` under its in-bounds precondition, and `goTo` / `next` / `previous`
/ `close` unconditionally.  An out-of-range index passed to `goTo` is never
surfaced as an error: it is normalized into `[0, length-1]` (negative ↦
`length-1`, too large ↦ `0`) and the call returns normally.  (`open` does
not normalize: an out-of-range `startIndex` is stored as-is and the image
lookup throws, per the counterexample.) -/
theorem gallery_index_invariant_preserved (s : GalleryState) (g : List ImageEntry)
    (i j : Int) (h0 : 0 ≤ i) (h1 : i < (g.length : Int)) :
    (∀ t, openLightbox g i s = .ok t → indexInvariant t) ∧
    (indexInvariant s → ∀ t, goToSlide j s = .ok t → indexInvariant t) ∧
    (indexInvariant s → ∀ t, nextSlide s = .ok t → indexInvariant t) ∧
    (indexInvariant s → ∀ t, prevSlide s = .ok t → indexInvariant t) ∧
    indexInvariant (closeLightbox s) ∧
    (s.isAnimating = false → s.images.length ≠ 0 →
      threw (goToSlide j s) = false ∧
      0 ≤ (stateAfter (goToSlide j s)).currentSlide ∧
      (stateAfter (goToSlide j s)).currentSlide < (s.images.length : Int)) := by
  refine ⟨fun t h => openLightbox_ok_invariant g i s t h,
    fun hs t h => goToSlide_ok_invariant j s t h hs, ?_, ?_, ?_, ?_⟩
  · intro hs t h
    unfold nextSlide at h
    by_cases hb : s.isAnimating = true
    · rw [if_pos hb] at h
      simp only [Except.ok.injEq] at h
      subst h
      exact hs
    · rw [if_neg hb] at h
      exact goToSlide_ok_invariant _ s t h hs
  · intro hs t h
    unfold prevSlide at h
    by_cases hb : s.isAnimating = true
    · rw [if_pos hb] at h
      simp only [Except.ok.injEq] at h
      subst h
      exact hs
    · rw [if_neg hb] at h
      exact goToSlide_ok_invariant _ s t h hs
  · intro hopen
    exfalso
    revert hopen
    cases hsi : s.slideshowInterval <;>
      simp [isOpen, closeLightbox, stopSlideshow, hsi]
  · intro ha hn
    rw [goToSlide_eq j s ha hn]
    refine ⟨rfl, ?_, ?_⟩
    · simpa [stateAfter] using wrapIndex_nonneg j s.images.length hn
    · simpa [stateAfter] using wrapIndex_lt j s.images.length hn

/-- C1 (witness): the invariant theorem applied to the concrete gallery
`gallery3`, indices 0 and -2, on the freshly opened state. -/
theorem gallery_index_invariant_preserved_witness :
    ((0 : Int) ≤ 0 ∧ (0 : Int) < (gallery3.length : Int)) ∧
    indexInvariant sOpen ∧
    (threw (goToSlide (-2) sOpen) = false ∧
      0 ≤ (stateAfter (goToSlide (-2) sOpen)).currentSlide ∧
      (stateAfter (goToSlide (-2) sOpen)).currentSlide < (sOpen.images.length : Int)) :=
  ⟨⟨by decide, by decide⟩,
   (gallery_index_invariant_preserved initState gallery3 0 (-2) (by decide)
      (by decide)).1 sOpen rfl,
   (gallery_index_invariant_preserved sOpen gallery3 0 (-2) (by decide)
      (by decide)).2.2.2.2.2 (by decide) (by decide)⟩

/-- C2: on an open viewer with a non-empty gallery and the transition lock
clear, `nextSlide` at the last index returns normally and wraps
`currentSlide` to 0, and `prevSlide` at index 0 wraps it to the last
index. -/
theorem nav_wraparound (s : GalleryState)
    (ho : isOpen s = true) (ha : s.isAnimating = false)
    (hn : s.images.length ≠ 0) :
    (s.currentSlide = (s.images.length : Int) - 1 →
      threw (nextSlide s) = false ∧
      (stateAfter (nextSlide s)).currentSlide = 0) ∧
    (s.currentSlide = 0 →
      threw (prevSlide s) = false ∧
      (stateAfter (prevSlide s)).currentSlide = (s.images.length : Int) - 1) := by
  rw [nextSlide_eq_goToSlide s ha, prevSlide_eq_goToSlide s ha,
    goToSlide_eq _ s ha hn, goToSlide_eq _ s ha hn]
  constructor
  · intro hc
    rw [hc]
    exact ⟨rfl, by simpa [stateAfter] using wrapIndex_last_succ s.images.length hn⟩
  · intro hc
    rw [hc]
    exact ⟨rfl, by simpa [stateAfter] using wrapIndex_zero_pred s.images.length hn⟩

/-- C2 (witness): the wrap theorem on `gallery3`, forward from index 2 and
backward from index 0. -/
theorem nav_wraparound_witness :
    (isOpen sLast = true ∧ sLast.isAnimating = false ∧
      sLast.images.length ≠ 0 ∧
      sLast.currentSlide = (sLast.images.length : Int) - 1) ∧
    (threw (nextSlide sLast) = false ∧
      (stateAfter (nextSlide sLast)).currentSlide = 0) ∧
    (isOpen sOpen = true ∧ sOpen.currentSlide = 0) ∧
    (threw (prevSlide sOpen) = false ∧
      (stateAfter (prevSlide sOpen)).currentSlide = (sOpen.images.length : Int) - 1) :=
  ⟨⟨by decide, by decide, by decide, by decide⟩,
   (nav_wraparound sLast (by decide) (by decide) (by decide)).1 (by decide),
   ⟨by decide, by decide⟩,
   (nav_wraparound sOpen (by decide) (by decide) (by decide)).2 (by decide)⟩

/-- C3: on an open viewer with a non-empty gallery, the lock clear, and a
valid `currentSlide`, calling `nextSlide`, letting the 300 ms unlock timeout
fire, then calling `prevSlide` returns normally and restores `currentSlide`
to its original value. -/
theorem next_then_prev_roundtrip (s : GalleryState)
    (ho : isOpen s = true) (ha : s.isAnimating = false)
    (hn : s.images.length ≠ 0)
    (h0 : 0 ≤ s.currentSlide) (h1 : s.currentSlide < (s.images.length : Int)) :
    threw (nextSlide s) = false ∧
    threw (prevSlide (fireUnlockTimeout (stateAfter (nextSlide s)))) = false ∧
    (stateAfter (prevSlide (fireUnlockTimeout (stateAfter (nextSlide s))))).currentSlide
      = s.currentSlide := by
  rw [nextSlide_eq_goToSlide s ha, goToSlide_eq _ s ha hn]
  refine ⟨rfl, ?_, ?_⟩ <;>
  · rw [show stateAfter (.ok _) = _ from rfl]
    rw [prevSlide_eq_goToSlide _ rfl, goToSlide_eq _ _ rfl (by simpa using hn)]
    simp [threw, stateAfter, fireUnlockTimeout,
      wrapIndex_roundtrip s.currentSlide s.images.length h0 h1]

/-- C3 (witness): the roundtrip theorem on `gallery3` at index 0. -/
theorem next_then_prev_roundtrip_witness :
    (isOpen sOpen = true ∧ sOpen.isAnimating = false ∧
      sOpen.images.length ≠ 0 ∧ (0 : Int) ≤ sOpen.currentSlide ∧
      sOpen.currentSlide < (sOpen.images.length : Int)) ∧
    threw (nextSlide sOpen) = false ∧
    threw (prevSlide (fireUnlockTimeout (stateAfter (nextSlide sOpen)))) = false ∧
    (stateAfter (prevSlide (fireUnlockTimeout (stateAfter (nextSlide sOpen))))).currentSlide
      = sOpen.currentSlide :=
  ⟨⟨by decide, by decide, by decide, by decide, by decide⟩,
   next_then_prev_roundtrip sOpen (by decide) (by decide) (by decide)
     (by decide) (by decide)⟩

/-- C4: while `isAnimating` is true, any sequence of `nextSlide`,
`prevSlide`, and `goToSlide` calls returns normally and leaves the entire
viewer state unchanged. -/
theorem transition_lock_freezes_state (s : GalleryState) (ops : List NavOp)
    (h : s.isAnimating = true) : applyNavs ops s = .ok s := by
  induction ops with
  | nil => rfl
  | cons op ops ih =>
      have hop : applyNav op s = .ok s := by
        cases op <;> simp [applyNav, nextSlide, prevSlide, goToSlide, h]
      simp [applyNavs, hop, ih]

/-- C4 (witness): the frame theorem on a locked state under a mixed
sequence of navigation requests, including an out-of-range `goTo`. -/
theorem transition_lock_freezes_state_witness :
    sLocked.isAnimating = true ∧
    applyNavs [NavOp.next, NavOp.prev, NavOp.goTo 7, NavOp.next] sLocked = .ok sLocked :=
  ⟨rfl, transition_lock_freezes_state sLocked
    [NavOp.next, NavOp.prev, NavOp.goTo 7, NavOp.next] rfl⟩

/-- C5: for every in-bounds `startIndex`, `openLightbox` returns normally
and sets `currentSlide = startIndex`, opens the viewer, stores the gallery
as active, locks background scrolling, and starts the image load for
`startIndex` (loader shown, image source set to the entry's full source,
caption set to its alt text). -/
theorem openLightbox_valid_index_spec (s : GalleryState) (g : List ImageEntry)
    (i : Int) (h0 : 0 ≤ i) (h1 : i < (g.length : Int)) :
    threw (openLightbox g i s) = false ∧
    (stateAfter (openLightbox g i s)).currentSlide = i ∧
    isOpen (stateAfter (openLightbox g i s)) = true ∧
    (stateAfter (openLightbox g i s)).currentGallery = g ∧
    (stateAfter (openLightbox g i s)).images = g ∧
    (stateAfter (openLightbox g i s)).bodyOverflowHidden = true ∧
    (stateAfter (openLightbox g i s)).loaderVisible = true ∧
    (stateAfter (openLightbox g i s)).lightboxImageSrc = fullSrc (g.getD i.toNat default) ∧
    (stateAfter (openLightbox g i s)).lightboxCaption = (g.getD i.toNat default).alt := by
  rw [openLightbox_eq g i s h0 h1]
  exact ⟨rfl, rfl, rfl, rfl, rfl, rfl, rfl, rfl, rfl⟩

/-- C5 (witness): opening `gallery3` at index 1 from the initial state. -/
theorem openLightbox_valid_index_spec_witness :
    ((0 : Int) ≤ 1 ∧ (1 : Int) < (gallery3.length : Int)) ∧
    threw (openLightbox gallery3 1 initState) = false ∧
    (stateAfter (openLightbox gallery3 1 initState)).currentSlide = 1 ∧
    isOpen (stateAfter (openLightbox gallery3 1 initState)) = true ∧
    (stateAfter (openLightbox gallery3 1 initState)).currentGallery = gallery3 ∧
    (stateAfter (openLightbox gallery3 1 initState)).images = gallery3 ∧
    (stateAfter (openLightbox gallery3 1 initState)).bodyOverflowHidden = true ∧
    (stateAfter (openLightbox gallery3 1 initState)).loaderVisible = true ∧
    (stateAfter (openLightbox gallery3 1 initState)).lightboxImageSrc =
      fullSrc (gallery3.getD (1 : Int).toNat default) ∧
    (stateAfter (openLightbox gallery3 1 initState)).lightboxCaption =
      (gallery3.getD (1 : Int).toNat default).alt :=
  ⟨⟨by decide, by decide⟩,
   openLightbox_valid_index_spec initState gallery3 1 (by decide) (by decide)⟩

/-- C6 (code evaluation at the failing input): calling `startSlideshow`
twice does not restart the timer — the first interval's handle is
overwritten without `clearInterval`, so after `stopSlideshow` the first
interval is still live, it still fires and navigates the viewer
(`currentSlide` moves from 0 to 1), and even `closeLightbox` cannot cancel
it. -/
theorem double_start_slideshow_leaks_timer :
    (startSlideshow sOpen).slideshowInterval = some 1 ∧
    (startSlideshow (startSlideshow sOpen)).slideshowInterval = some 2 ∧
    (startSlideshow (startSlideshow sOpen)).activeIntervals = [1, 2] ∧
    (stopSlideshow (startSlideshow (startSlideshow sOpen))).slideshowInterval = none ∧
    (stopSlideshow (startSlideshow (startSlideshow sOpen))).activeIntervals = [1] ∧
    threw (intervalTick 1 (stopSlideshow (startSlideshow (startSlideshow sOpen)))) = false ∧
    (stateAfter (intervalTick 1
      (stopSlideshow (startSlideshow (startSlideshow sOpen))))).currentSlide = 1 ∧
    sOpen.currentSlide = 0 ∧
    (closeLightbox (stopSlideshow (startSlideshow (startSlideshow sOpen)))).activeIntervals
      = [1] := by
  refine ⟨rfl, rfl, rfl, rfl, rfl, rfl, rfl, rfl, rfl⟩

/-- C7: on image-load failure `handleImageError` substitutes the
placeholder source and the error caption and hides the loader, while the
viewer stays open with its index, lock, and gallery untouched; with the
lock clear and a non-empty gallery, navigation after the failure still
returns normally. -/
theorem image_error_fallback_keeps_viewer_open (s : GalleryState)
    (ho : isOpen s = true) :
    (handleImageError s).lightboxImageSrc = "/assets/images/error-image.jpg" ∧
    (handleImageError s).lightboxCaption = "Error loading image" ∧
    (handleImageError s).loaderVisible = false ∧
    isOpen (handleImageError s) = true ∧
    (handleImageError s).currentSlide = s.currentSlide ∧
    (handleImageError s).isAnimating = s.isAnimating ∧
    (handleImageError s).images = s.images ∧
    (s.isAnimating = false → s.images.length ≠ 0 →
      threw (nextSlide (handleImageError s)) = false ∧
      threw (prevSlide (handleImageError s)) = false ∧
      ∀ j, threw (goToSlide j (handleImageError s)) = false) := by
  refine ⟨rfl, rfl, rfl, ho, rfl, rfl, rfl, fun ha hn => ?_⟩
  have ha' : (handleImageError s).isAnimating = false := ha
  have hn' : (handleImageError s).images.length ≠ 0 := hn
  refine ⟨?_, ?_, fun j => ?_⟩
  · rw [nextSlide_eq_goToSlide _ ha', goToSlide_eq _ _ ha' hn']
    rfl
  · rw [prevSlide_eq_goToSlide _ ha', goToSlide_eq _ _ ha' hn']
    rfl
  · rw [goToSlide_eq j _ ha' hn']
    rfl

/-- C7 (witness): the fallback theorem on the viewer opened at index 1 of
`gallery3` whose image load then fails. -/
theorem image_error_fallback_keeps_viewer_open_witness :
    isOpen (stateAfter (openLightbox gallery3 1 initState)) = true ∧
    (handleImageError (stateAfter (openLightbox gallery3 1 initState))).lightboxImageSrc
      = "/assets/images/error-image.jpg" ∧
    (handleImageError (stateAfter (openLightbox gallery3 1 initState))).lightboxCaption
      = "Error loading image" ∧
    isOpen (handleImageError (stateAfter (openLightbox gallery3 1 initState))) = true :=
  ⟨by decide,
   (image_error_fallback_keeps_viewer_open
      (stateAfter (openLightbox gallery3 1 initState)) (by decide)).1,
   (image_error_fallback_keeps_viewer_open
      (stateAfter (openLightbox gallery3 1 initState)) (by decide)).2.1,
   (image_error_fallback_keeps_viewer_open
      (stateAfter (openLightbox gallery3 1 initState)) (by decide)).2.2.2.1⟩

/-- C8: `closeLightbox` closes the viewer, restores background scrolling,
clears the slideshow handle, cancels the running slideshow interval (the
stored id occurs at most once among the live timers in any reachable
state), and is idempotent: a second `closeLightbox` is a no-op and leaves
the viewer closed. -/
theorem closeLightbox_idempotent_cleanup (s : GalleryState) :
    isOpen (closeLightbox s) = false ∧
    (closeLightbox s).bodyOverflowHidden = false ∧
    (closeLightbox s).slideshowInterval = none ∧
    (∀ id, s.slideshowInterval = some id → s.activeIntervals.count id ≤ 1 →
      id ∉ (closeLightbox s).activeIntervals) ∧
    closeLightbox (closeLightbox s) = closeLightbox s := by
  cases hsi : s.slideshowInterval with
  | none =>
      refine ⟨?_, ?_, ?_, ?_, ?_⟩ <;>
        simp [closeLightbox, stopSlideshow, isOpen, hsi]
  | some id =>
      refine ⟨?_, ?_, ?_, ?_, ?_⟩
      · simp [closeLightbox, stopSlideshow, hsi, isOpen]
      · simp [closeLightbox, stopSlideshow, hsi]
      · simp [closeLightbox, stopSlideshow, hsi]
      · intro id' hid' hcount hmem
        obtain rfl : id = id' := Option.some.inj (hsi ▸ hid')
        have hmem' : id ∈ s.activeIntervals.erase id := by
          simpa [closeLightbox, stopSlideshow, hsi] using hmem
        have h1 := List.count_erase_self id s.activeIntervals
        have h2 := List.count_pos_iff.mpr hmem'
        omega
      · simp [closeLightbox, stopSlideshow, hsi]

/-- C8 (witness): closing a viewer with a running slideshow: closed,
scroll restored, interval 1 cancelled, and a second close is a no-op. -/
theorem closeLightbox_idempotent_cleanup_witness :
    isOpen (closeLightbox (startSlideshow sOpen)) = false ∧
    (closeLightbox (startSlideshow sOpen)).bodyOverflowHidden = false ∧
    (closeLightbox (startSlideshow sOpen)).slideshowInterval = none ∧
    ((startSlideshow sOpen).slideshowInterval = some 1 ∧
      (startSlideshow sOpen).activeIntervals.count 1 ≤ 1 ∧
      1 ∉ (closeLightbox (startSlideshow sOpen)).activeIntervals) ∧
    closeLightbox (closeLightbox (startSlideshow sOpen)) =
      closeLightbox (startSlideshow sOpen) :=
  ⟨(closeLightbox_idempotent_cleanup (startSlideshow sOpen)).1,
   (closeLightbox_idempotent_cleanup (startSlideshow sOpen)).2.1,
   (closeLightbox_idempotent_cleanup (startSlideshow sOpen)).2.2.1,
   ⟨by decide, by decide,
    (closeLightbox_idempotent_cleanup (startSlideshow sOpen)).2.2.2.1 1
      (by decide) (by decide)⟩,
   (closeLightbox_idempotent_cleanup (startSlideshow sOpen)).2.2.2.2⟩

/-- C9 (implicit): navigation is not gated on the viewer being open — on a
closed viewer with the lock clear and a non-empty gallery, `nextSlide` and
`prevSlide` return normally and move `currentSlide` exactly as they would
on the same state with the lightbox shown; the only protection against the
slideshow firing on a closed viewer is that `closeLightbox` always leaves
the slideshow handle cleared. -/
theorem nav_ignores_isOpen_and_close_clears_timer (s t : GalleryState)
    (hc : isOpen s = false) (ha : s.isAnimating = false)
    (hn : s.images.length ≠ 0) :
    threw (nextSlide s) = false ∧
    threw (prevSlide s) = false ∧
    (stateAfter (nextSlide s)).currentSlide =
      (stateAfter (nextSlide { s with lightboxHidden := false })).currentSlide ∧
    (stateAfter (prevSlide s)).currentSlide =
      (stateAfter (prevSlide { s with lightboxHidden := false })).currentSlide ∧
    (stateAfter (nextSlide s)).currentSlide =
      wrapIndex (s.currentSlide + 1) s.images.length ∧
    (stateAfter (prevSlide s)).currentSlide =
      wrapIndex (s.currentSlide - 1) s.images.length ∧
    (closeLightbox t).slideshowInterval = none := by
  have ha' : ({ s with lightboxHidden := false } : GalleryState).isAnimating = false := ha
  have hn' : ({ s with lightboxHidden := false } : GalleryState).images.length ≠ 0 := hn
  rw [nextSlide_eq_goToSlide s ha, prevSlide_eq_goToSlide s ha,
    goToSlide_eq _ s ha hn, goToSlide_eq _ s ha hn,
    nextSlide_eq_goToSlide _ ha', prevSlide_eq_goToSlide _ ha',
    goToSlide_eq _ _ ha' hn', goToSlide_eq _ _ ha' hn']
  refine ⟨rfl, rfl, rfl, rfl, rfl, rfl, ?_⟩
  exact (closeLightbox_slideshow_none t)

/-- C9 (witness): the theorem on the closed state reached by opening
`gallery3` and closing again, compared against its reopened twin. -/
theorem nav_ignores_isOpen_and_close_clears_timer_witness :
    (isOpen sClosed = false ∧ sClosed.isAnimating = false ∧
      sClosed.images.length ≠ 0) ∧
    threw (nextSlide sClosed) = false ∧
    (stateAfter (nextSlide sClosed)).currentSlide =
      (stateAfter (nextSlide { sClosed with lightboxHidden := false })).currentSlide ∧
    (stateAfter (nextSlide sClosed)).currentSlide =
      wrapIndex (sClosed.currentSlide + 1) sClosed.images.length ∧
    (closeLightbox sClosed).slideshowInterval = none :=
  ⟨⟨by decide, by decide, by decide⟩,
   (nav_ignores_isOpen_and_close_clears_timer sClosed sClosed (by decide)
      (by decide) (by decide)).1,
   (nav_ignores_isOpen_and_close_clears_timer sClosed sClosed (by decide)
      (by decide) (by decide)).2.2.1,
   (nav_ignores_isOpen_and_close_clears_timer sClosed sClosed (by decide)
      (by decide) (by decide)).2.2.2.2.1,
   (nav_ignores_isOpen_and_close_clears_timer sClosed sClosed (by decide)
      (by decide) (by decide)).2.2.2.2.2.2⟩

/-- C10 (implicit): a `goToSlide` that passes the guard sets the lock and
schedules its release after exactly `animationDuration = 300` ms; the
image-load callback never touches the lock or the pending unlock; the
scheduled timeout is what clears the lock; and `goToSlide(currentSlide)` on
a valid current index engages the lock without changing `currentSlide`. -/
theorem transition_lock_timing (s : GalleryState)
    (ha : s.isAnimating = false) (hn : s.images.length ≠ 0)
    (h0 : 0 ≤ s.currentSlide) (h1 : s.currentSlide < (s.images.length : Int)) :
    animationDuration = 300 ∧
    (∀ i, threw (goToSlide i s) = false ∧
      (stateAfter (goToSlide i s)).isAnimating = true ∧
      (stateAfter (goToSlide i s)).unlockDelay = some animationDuration) ∧
    (∀ u : GalleryState, (handleImageLoad u).isAnimating = u.isAnimating ∧
      (handleImageLoad u).unlockDelay = u.unlockDelay) ∧
    (∀ u : GalleryState, (fireUnlockTimeout u).isAnimating = false ∧
      (fireUnlockTimeout u).unlockDelay = none) ∧
    (stateAfter (goToSlide s.currentSlide s)).currentSlide = s.currentSlide := by
  refine ⟨rfl, fun i => ?_, fun u => ⟨rfl, rfl⟩, fun u => ⟨rfl, rfl⟩, ?_⟩
  · rw [goToSlide_eq i s ha hn]
    exact ⟨rfl, rfl, rfl⟩
  · rw [goToSlide_eq _ s ha hn]
    simpa [stateAfter] using wrapIndex_self s.currentSlide s.images.length h0 h1

/-- C10 (witness): the timing theorem on the freshly opened viewer,
clicking the already-active thumbnail 0. -/
theorem transition_lock_timing_witness :
    (sOpen.isAnimating = false ∧ sOpen.images.length ≠ 0 ∧
      (0 : Int) ≤ sOpen.currentSlide ∧
      sOpen.currentSlide < (sOpen.images.length : Int)) ∧
    (threw (goToSlide sOpen.currentSlide sOpen) = false ∧
      (stateAfter (goToSlide sOpen.currentSlide sOpen)).isAnimating = true ∧
      (stateAfter (goToSlide sOpen.currentSlide sOpen)).unlockDelay =
        some animationDuration) ∧
    (stateAfter (goToSlide sOpen.currentSlide sOpen)).currentSlide = sOpen.currentSlide :=
  ⟨⟨by decide, by decide, by decide, by decide⟩,
   (transition_lock_timing sOpen (by decide) (by decide) (by decide)
      (by decide)).2.1 sOpen.currentSlide,
   (transition_lock_timing sOpen (by decide) (by decide) (by decide)
      (by decide)).2.2.2.2⟩
